import Mathlib

/-!
Verification of the feedback composer (src/exchanger/feedback.py).

The module builds an email feedback (subject + html body) from a grading
result.  The embedding below translates the `FeedbackCreator` class into
plain Lean functions: the constructor-time state (course name, teacher
email, picture-link table, four loaded template strings) becomes the
`FeedbackCreator` structure, the `get_feedback` method becomes a function
returning `Except String Feedback` (the `raise ValueError` branch becomes
`Except.error`), and Python floats become rationals.  Python `str.format`
with named keyword arguments is modelled by `pyFormat`, which replaces each
placeholder `\x7bkey\x7d` in the template text by the rendered argument; the
template texts themselves are arbitrary string fields of the structure
because the resource files are loaded from disk.
-/

namespace Exchanger

/-- Modelled from the spec: the fixed date pattern (`DATE_FORMAT` from
`definitions.py`, which is not part of this module); the claims only need
it to be one fixed string. -/
def DATE_FORMAT : String := "%d.%m.%Y %H:%M"

/-- Modelled from the spec: a timestamp value, represented by its
`strftime` rendering function (only `strftime` is used by the module). -/
structure Timestamp where
  strftime : String → String

/-- Modelled from the spec: a per-task grade record (name, numeric score,
numeric max_score); Python floats are modelled as rationals. -/
structure Task where
  name : String
  score : ℚ
  max_score : ℚ
deriving DecidableEq

/-- Modelled from the spec: the grade-status enumeration with its six fixed
variants (five error kinds, one success kind).  The extra constructor
`unknown` stands for any status value outside the six variants — the
dynamically typed source can receive such a value, and `get_feedback`
raises on it; its `String` argument is the `str()` rendering interpolated
into the error message. -/
inductive GradeStatus where
  | ERROR_NO_CORRECT_FILES
  | ERROR_NOTEBOOK_CORRUPTED
  | ERROR_LESSON_IS_ABSENT
  | ERROR_USERNAME_IS_ABSENT
  | ERROR_GRADER_FAILED
  | SUCCESS
  | unknown (text : String)
deriving DecidableEq

/-- Modelled from the spec: the grading-result input record, with exactly
the fields the module reads (status, student identity fields, lesson name,
timestamp, per-task grades, email). -/
structure GradeResult where
  status : GradeStatus
  student_id : String
  first_name : String
  last_name : String
  email : String
  lesson_name : String
  timestamp : Timestamp
  task_grades : List Task

/-- Modelled from the spec: the output record (subject, html body,
recipient email, optional student display name). -/
structure Feedback where
  subject : String
  html_body : String
  email : String
  student_name : Option String
deriving DecidableEq

/-- Models the picture-link dictionary through the keys the module reads;
field `p0_20` models key "0_20" and so on.  Lookups in the source are plain
dict indexing, so the table is assumed to contain all of these keys. -/
structure PicLinks where
  python_logo : String
  p0_20 : String
  p21_40 : String
  p41_60 : String
  p61_80 : String
  p81_99 : String
  p100 : String
  unknown_user : String
  grader_failed : String
  unknown_lesson : String
  unknown_files : String
  unknown_content : String
  check : String
  xmark : String
deriving DecidableEq

/-- State of a constructed `FeedbackCreator`: constructor arguments plus the
four template texts loaded from the resource directory (their contents are
arbitrary strings here since the resource files live outside the module). -/
structure FeedbackCreator where
  teacher_email : String
  course_name : String
  pics : PicLinks
  template : String
  styles : String
  error_body : String
  grades_body : String
deriving DecidableEq

/-- Models Python rendering of a numeric value into an f-string or a
format placeholder; no claim depends on the exact digits produced. -/
def pyStr (q : ℚ) : String := toString q

/-- Models Python rendering of an optional string: `None` prints as the
four-letter text "None" when interpolated by `str.format`. -/
def pyStrOrNone : Option String → String
  | some s => s
  | none => "None"

/-- Rounds a rational to the nearest integer, ties to even — the rounding
Python `round` uses. -/
def roundHalfEven (x : ℚ) : ℤ :=
  let n := ⌊x⌋
  let frac := x - n
  if frac < 1/2 then n
  else if 1/2 < frac then n + 1
  else if n % 2 = 0 then n else n + 1

/-- Models Python `round(x, ndigits)` on rationals: round half to even at
the requested decimal place. -/
def pyRound (x : ℚ) (ndigits : ℕ) : ℚ :=
  (roundHalfEven (x * 10 ^ ndigits) : ℚ) / 10 ^ ndigits

/-- Replaces every occurrence of the placeholder `\x7bkey\x7d` in `s` by
`value`. -/
def substKey (s : String) (kv : String × String) : String :=
  s.replace ("\x7b" ++ kv.1 ++ "\x7d") kv.2

/-- Models `template.format(key=value, ...)` for the simple named-placeholder
templates this module uses: substitute each argument in turn. -/
def pyFormat (template : String) (args : List (String × String)) : String :=
  args.foldl substKey template

/-- Error text of `_get_absent_username_feedback` (whitespace as in the
source triple-quoted literal). -/
def absent_username_text : String :=
  "\n                   We have received your letter, but we do not know what to \n                   do with it. Your email is not in our database, \n                   so we cannot check the work.\n                   "

/-- Error text of `_get_grader_failed_feedback`. -/
def grader_failed_text : String :=
  "\n                   We received your work, but the grading process ended \n                   with an error. Probably your code consumes too much RAM, \n                   has infinite loops, or contains very deep recursions.\n                   Check it and send again :)\n                   "

/-- Error text of `_get_incorrect_lesson_feedback`. -/
def incorrect_lesson_text : String :=
  "\n                   We have received your submission, but the lesson name \n                   extracted from the email subject is not correct. \n                   Check it and send again :)\n                   "

/-- Error text of `_get_no_correct_files_feedback`. -/
def no_correct_files_text : String :=
  "\n                   We have received your submission, but we have not found any \n                   files that are necessary for the lesson specified in the \n                   subject. Check the files and send again :)\n                   "

/-- Error text of `_get_notebook_corrupted_feedback`. -/
def notebook_corrupted_text : String :=
  "\n                   We have received your submission and found necessary \n                   files in the attachment. However, our robots are confused :) \n                   Because the content of the files does not match the lesson \n                   specified in the subject.\n                   "

/-- Embeds `_get_absent_username_feedback`: body and subject for an unknown
user. -/
def get_absent_username_feedback (fc : FeedbackCreator) : String × String :=
  (pyFormat fc.error_body
     [("err_text", absent_username_text),
      ("teacher_email", fc.teacher_email),
      ("image_link", fc.pics.unknown_user)],
   fc.course_name ++ " / Unknown user")

/-- Embeds `_get_grader_failed_feedback`. -/
def get_grader_failed_feedback (fc : FeedbackCreator) : String × String :=
  (pyFormat fc.error_body
     [("err_text", grader_failed_text),
      ("teacher_email", fc.teacher_email),
      ("image_link", fc.pics.grader_failed)],
   fc.course_name ++ " / Grader failed")

/-- Embeds `_get_incorrect_lesson_feedback`. -/
def get_incorrect_lesson_feedback (fc : FeedbackCreator) : String × String :=
  (pyFormat fc.error_body
     [("err_text", incorrect_lesson_text),
      ("teacher_email", fc.teacher_email),
      ("image_link", fc.pics.unknown_lesson)],
   fc.course_name ++ " / Unknown lesson")

/-- Embeds `_get_no_correct_files_feedback`. -/
def get_no_correct_files_feedback (fc : FeedbackCreator) : String × String :=
  (pyFormat fc.error_body
     [("err_text", no_correct_files_text),
      ("teacher_email", fc.teacher_email),
      ("image_link", fc.pics.unknown_files)],
   fc.course_name ++ " / No correct files")

/-- Embeds `_get_notebook_corrupted_feedback`. -/
def get_notebook_corrupted_feedback (fc : FeedbackCreator) : String × String :=
  (pyFormat fc.error_body
     [("err_text", notebook_corrupted_text),
      ("teacher_email", fc.teacher_email),
      ("image_link", fc.pics.unknown_content)],
   fc.course_name ++ " / Robots in panic")

/-- Embeds `_get_pic_by_grade`: the picture chosen by the grade sum. -/
def get_pic_by_grade (fc : FeedbackCreator) (grade_sum : ℚ) : String :=
  if grade_sum ≤ 20 then fc.pics.p0_20
  else if grade_sum ≤ 40 then fc.pics.p21_40
  else if grade_sum ≤ 60 then fc.pics.p41_60
  else if grade_sum ≤ 80 then fc.pics.p61_80
  else if grade_sum ≤ 99 then fc.pics.p81_99
  else fc.pics.p100

/-- Speech text returned by `_get_feedback_message` when `score == 0`. -/
def msg_score_zero : String :=
  "\n            It seems that something went wrong, and the tasks were not solved. \n            Try again to study the theory and reread task descriptions.<br>\n            We also recommend you use the links to additional materials. \n            Don\x27t be discouraged – everyone makes mistakes. \n            We look forward to getting more letters from you.\n            "

/-- Speech text returned by `_get_feedback_message` when `score <= 80`,
with `round(score, 0)` and `round(max_score, 0)` interpolated. -/
def msg_not_enough (score max_score : ℚ) : String :=
  "\n            You scored " ++ pyStr (pyRound score 0) ++ " out of " ++
    pyStr (pyRound max_score 0) ++
    " points, \n            which is not enough for the lesson to be passed. Try again to study \n            the theory and reread task descriptions.<br>\n            We also recommend you use the links to additional materials. \n            Don\x27t be discouraged – everyone makes mistakes. \n            We look forward to getting more letters from you.\n            "

/-- Speech text returned by `_get_feedback_message` when `score <= 99`. -/
def msg_can_improve (score max_score : ℚ) : String :=
  " It looks like you have a good understanding of the \n            topic and scored " ++
    pyStr (pyRound score 0) ++ " out of \n            " ++
    pyStr (pyRound max_score 0) ++
    " points. \n            The result is accepted and you can proceed to the next lesson.<br>\n            If you want to bring the result to perfection, \n            find your mistakes and send the solution again. \n            We also recommend you to look at additional materials. \n            Perhaps you will discover something new for yourself.\n            "

/-- Speech text returned by `_get_feedback_message` when `score == 100`. -/
def msg_perfect : String :=
  "Excellent! You have reached the maximum number of \n            points.The result is accepted, and you can proceed to the next \n            lesson.<br> \n            If you want to understand the topic even better, \n            we advise you to look at additional materials. Perhaps you will \n            discover something new for yourself. "

/-- Embeds `_get_feedback_message`.  The Python function has no final
`else`: when every guard fails (score strictly between 99 and 100, or
above 100) it implicitly returns `None`, modelled here as `none`. -/
def get_feedback_message (score max_score : ℚ) : Option String :=
  if score = 0 then some msg_score_zero
  else if score ≤ 80 then some (msg_not_enough score max_score)
  else if score ≤ 99 then some (msg_can_improve score max_score)
  else if score = 100 then some msg_perfect
  else none

/-- Image selected inside the `_get_grade_part` loop body: `check` unless
the score of the task is below its max score, in which case `xmark`. -/
def task_row_img (pics : PicLinks) (task : Task) : String :=
  if task.score < task.max_score then pics.xmark else pics.check

/-- Text of one table row of `_get_grade_part` up to the `img` slot
(whitespace as in the source f-string). -/
def row_before (index : ℕ) (task : Task) : String :=
  "\n            <tr>\n                <td>" ++ toString (index + 1) ++ ". " ++
    task.name ++ "</td>\n                <td>" ++ pyStr (pyRound task.score 1) ++
    "</td>\n                <td><img class=\"report-table-icon\" \n                src=\""

/-- Text of one table row of `_get_grade_part` after the `img` slot. -/
def row_after : String :=
  "\" alt=\"Mark\" style=\"border: none; \n                -ms-interpolation-mode: bicubic; display: block; \n                width: 14px; height: 14px;\" width=\"14\" height=\"14\"></td>\n            </tr>\n            "

/-- One iteration of the `_get_grade_part` loop: the full row appended for
the task at position `index` (0-based, displayed as `index + 1`). -/
def task_row (fc : FeedbackCreator) (index : ℕ) (task : Task) : String :=
  row_before index task ++ task_row_img fc.pics task ++ row_after

/-- Embeds `_get_grade_part`: starting from the empty string, append one
row per task of the enumerated list. -/
def get_grade_part (fc : FeedbackCreator) (grades : List Task) : String :=
  grades.enum.foldl (fun acc p => acc ++ task_row fc p.1 p.2) ""

/-- Embeds `_get_success_feedback`: body and subject when grading
succeeded. -/
def get_success_feedback (fc : FeedbackCreator) (gr : GradeResult) : String × String :=
  let timestamp := gr.timestamp.strftime DATE_FORMAT
  let subject := fc.course_name ++ " / " ++ gr.lesson_name ++ " / " ++ timestamp
  let score := (gr.task_grades.map Task.score).sum
  let max_score := (gr.task_grades.map Task.max_score).sum
  let body := pyFormat fc.grades_body
    [("first_name", gr.first_name),
     ("lesson_name", gr.lesson_name),
     ("grades_info", get_grade_part fc gr.task_grades),
     ("image_link", get_pic_by_grade fc score),
     ("team_speech", pyStrOrNone (get_feedback_message score max_score)),
     ("sum_score", pyStr (pyRound score 1))]
  (body, subject)

/-- Tail of `get_feedback` shared by every non-raising branch: wrap the
branch body into the outer shell template and attach the optional student
display name (present exactly when both name fields are non-empty). -/
def wrap_feedback (fc : FeedbackCreator) (gr : GradeResult) (bs : String × String) : Feedback :=
  let content := pyFormat fc.template
    [("styles", fc.styles), ("body", bs.1),
     ("python_icon", fc.pics.python_logo), ("course_name", fc.course_name)]
  let student_name :=
    if gr.first_name ≠ "" ∧ gr.last_name ≠ ""
    then some (gr.first_name ++ " " ++ gr.last_name)
    else none
  { subject := bs.2, html_body := content,
    email := gr.email, student_name := student_name }

/-- Embeds `get_feedback`: dispatch on the status across the six variants;
any other status raises `ValueError`, modelled as `Except.error` carrying
the message text. -/
def get_feedback (fc : FeedbackCreator) (gr : GradeResult) : Except String Feedback :=
  match gr.status with
  | GradeStatus.ERROR_NO_CORRECT_FILES =>
      Except.ok (wrap_feedback fc gr (get_no_correct_files_feedback fc))
  | GradeStatus.ERROR_NOTEBOOK_CORRUPTED =>
      Except.ok (wrap_feedback fc gr (get_notebook_corrupted_feedback fc))
  | GradeStatus.ERROR_LESSON_IS_ABSENT =>
      Except.ok (wrap_feedback fc gr (get_incorrect_lesson_feedback fc))
  | GradeStatus.ERROR_USERNAME_IS_ABSENT =>
      Except.ok (wrap_feedback fc gr (get_absent_username_feedback fc))
  | GradeStatus.ERROR_GRADER_FAILED =>
      Except.ok (wrap_feedback fc gr (get_grader_failed_feedback fc))
  | GradeStatus.SUCCESS =>
      Except.ok (wrap_feedback fc gr (get_success_feedback fc gr))
  | GradeStatus.unknown text =>
      Except.error ("Unknown grade status \x22" ++ text ++ "\x22.")

/-- Decides whether a status is one of the six recognized variants of the
dispatch in `get_feedback`. -/
def recognized_status : GradeStatus → Bool
  | GradeStatus.unknown _ => false
  | _ => true

/-- Explicit-state form of the `get_feedback` method: the method body
performs no assignment to any attribute of `self`, so the state after the
call is the state before it, paired with the result. -/
def get_feedback_run (fc : FeedbackCreator) (gr : GradeResult) :
    Except String (Feedback × FeedbackCreator) :=
  (get_feedback fc gr).map (fun fb => (fb, fc))

/-- Concrete picture-link table used to instantiate the theorems below. -/
def exPics : PicLinks :=
  { python_logo := "PL", p0_20 := "P0", p21_40 := "P21", p41_60 := "P41",
    p61_80 := "P61", p81_99 := "P81", p100 := "P100", unknown_user := "UU",
    grader_failed := "GF", unknown_lesson := "UL", unknown_files := "UF",
    unknown_content := "UC", check := "CHK", xmark := "XM" }

/-- Concrete composer state used to instantiate the theorems below. -/
def exFC : FeedbackCreator :=
  { teacher_email := "teach@example.com", course_name := "Python Course",
    pics := exPics, template := "T", styles := "S", error_body := "E",
    grades_body := "G" }

/-- Concrete timestamp used to instantiate the theorems below. -/
def exStamp : Timestamp := ⟨fun _ => "01.01.2024 10:00"⟩

/-- Concrete task grade (half of the points) used in instances. -/
def exTask : Task := { name := "task 1", score := 50, max_score := 100 }

/-- Concrete success-status grading result. -/
def exSuccess : GradeResult :=
  { status := GradeStatus.SUCCESS, student_id := "id1", first_name := "Ada",
    last_name := "Byron", email := "ada@example.com", lesson_name := "Lesson 1",
    timestamp := exStamp, task_grades := [exTask] }

/-- Concrete grading result carrying a status outside the six variants. -/
def exUnknown : GradeResult := { exSuccess with status := GradeStatus.unknown "BAD" }

/-- Concrete grading result with one of the five error statuses. -/
def exUser : GradeResult :=
  { exSuccess with status := GradeStatus.ERROR_USERNAME_IS_ABSENT }

/-- Concrete success-status grading result with no task grades. -/
def exEmpty : GradeResult := { exSuccess with task_grades := [] }

/-- Concrete success-status grading result whose total score is 99.5, a
value no guard of `_get_feedback_message` accepts. -/
def exHalf : GradeResult :=
  { exSuccess with task_grades := [{ name := "task 1", score := 199/2, max_score := 100 }] }

theorem wrap_feedback_student_name (fc : FeedbackCreator) (gr : GradeResult)
    (bs : String × String) :
    (wrap_feedback fc gr bs).student_name =
      if gr.first_name ≠ "" ∧ gr.last_name ≠ ""
      then some (gr.first_name ++ " " ++ gr.last_name) else none := rfl

theorem get_feedback_ok_shape (fc : FeedbackCreator) (gr : GradeResult)
    (fb : Feedback) (h : get_feedback fc gr = Except.ok fb) :
    ∃ bs, fb = wrap_feedback fc gr bs := by
  rcases gr with ⟨st, sid, fn, ln, em, les, ts, tg⟩
  cases st <;> simp [get_feedback] at h <;> exact ⟨_, h.symm⟩

/-- C1 (counterexample): a success result whose single task scored 99.5 of
100 has a total score accepted by no guard of `_get_feedback_message`: the
function selects no paragraph (Python returns `None`), so the score
buckets do not cover every possible total score. -/
theorem feedback_message_gap_cex :
    exHalf.status = GradeStatus.SUCCESS ∧
    (exHalf.task_grades.map Task.score).sum = 199/2 ∧
    get_feedback_message ((exHalf.task_grades.map Task.score).sum)
      ((exHalf.task_grades.map Task.max_score).sum) = none := by
  refine ⟨rfl, by norm_num [exHalf, exSuccess], ?_⟩
  norm_num [exHalf, exSuccess, get_feedback_message]

/-- C1 (amended): compose interpolates the paragraph selected by
`_get_feedback_message` on the summed scores; the selection is by score
bucket (0 → encouragement-only; ≤ 80 → not-enough-retry; ≤ 99 →
passed-can-improve; = 100 → perfect), and a paragraph is produced exactly
for total scores that are ≤ 99 or exactly 100 — for a total score strictly
between 99 and 100 or above 100 no paragraph is selected. -/
theorem feedback_message_buckets (fc : FeedbackCreator) (gr : GradeResult)
    (score max_score : ℚ) :
    ((get_success_feedback fc gr).1 = pyFormat fc.grades_body
      [("first_name", gr.first_name),
       ("lesson_name", gr.lesson_name),
       ("grades_info", get_grade_part fc gr.task_grades),
       ("image_link", get_pic_by_grade fc ((gr.task_grades.map Task.score).sum)),
       ("team_speech", pyStrOrNone (get_feedback_message
          ((gr.task_grades.map Task.score).sum)
          ((gr.task_grades.map Task.max_score).sum))),
       ("sum_score", pyStr (pyRound ((gr.task_grades.map Task.score).sum) 1))]) ∧
    (score = 0 → get_feedback_message score max_score = some msg_score_zero) ∧
    (score ≠ 0 → score ≤ 80 →
      get_feedback_message score max_score = some (msg_not_enough score max_score)) ∧
    (80 < score → score ≤ 99 →
      get_feedback_message score max_score = some (msg_can_improve score max_score)) ∧
    (score = 100 → get_feedback_message score max_score = some msg_perfect) ∧
    (99 < score → score ≠ 100 → get_feedback_message score max_score = none) ∧
    ((get_feedback_message score max_score).isSome ↔ score ≤ 99 ∨ score = 100) := by
  refine ⟨rfl, ?_, ?_, ?_, ?_, ?_, ?_⟩
  · intro h; simp [get_feedback_message, h]
  · intro h0 h80; simp [get_feedback_message, h0, h80]
  · intro h80 h99
    have h0 : ¬ score = 0 := by intro h; rw [h] at h80; norm_num at h80
    have h80x : ¬ score ≤ 80 := not_le.mpr h80
    simp [get_feedback_message, h0, h80x, h99]
  · intro h; rw [h]; norm_num [get_feedback_message]
  · intro h99 h100
    have h0 : ¬ score = 0 := by intro h; rw [h] at h99; norm_num at h99
    have h80x : ¬ score ≤ 80 := by intro h; nlinarith
    have h99x : ¬ score ≤ 99 := not_le.mpr h99
    simp [get_feedback_message, h0, h80x, h99x, h100]
  · unfold get_feedback_message
    split_ifs with h1 h2 h3 h4
    · simp; left; rw [h1]; norm_num
    · simp; left; linarith
    · simp; left; exact h3
    · simp [h4]
    · simp
      exact ⟨not_le.mp h3, h4⟩

/-- C1 (witness): at total score 50 of 100 the not-enough-retry paragraph
is selected. -/
theorem feedback_message_buckets_witness :
    get_feedback_message 50 100 = some (msg_not_enough 50 100) :=
  (feedback_message_buckets exFC exSuccess 50 100).2.2.1 (by norm_num) (by norm_num)

/-- C2: the picture interpolated into the grades body is
`_get_pic_by_grade` of the summed task scores; that function picks the
"0_20" entry for scores ≤ 20, "21_40" for ≤ 40, "41_60" for ≤ 60,
"61_80" for ≤ 80, "81_99" for ≤ 99 and the "100" entry for every other
score, the earlier range taking precedence, so exactly one entry of the
six-element table is chosen for every score. -/
theorem pic_buckets (fc : FeedbackCreator) (gr : GradeResult) (s : ℚ) :
    ((get_success_feedback fc gr).1 = pyFormat fc.grades_body
      [("first_name", gr.first_name),
       ("lesson_name", gr.lesson_name),
       ("grades_info", get_grade_part fc gr.task_grades),
       ("image_link", get_pic_by_grade fc ((gr.task_grades.map Task.score).sum)),
       ("team_speech", pyStrOrNone (get_feedback_message
          ((gr.task_grades.map Task.score).sum)
          ((gr.task_grades.map Task.max_score).sum))),
       ("sum_score", pyStr (pyRound ((gr.task_grades.map Task.score).sum) 1))]) ∧
    (s ≤ 20 → get_pic_by_grade fc s = fc.pics.p0_20) ∧
    (20 < s → s ≤ 40 → get_pic_by_grade fc s = fc.pics.p21_40) ∧
    (40 < s → s ≤ 60 → get_pic_by_grade fc s = fc.pics.p41_60) ∧
    (60 < s → s ≤ 80 → get_pic_by_grade fc s = fc.pics.p61_80) ∧
    (80 < s → s ≤ 99 → get_pic_by_grade fc s = fc.pics.p81_99) ∧
    (99 < s → get_pic_by_grade fc s = fc.pics.p100) ∧
    get_pic_by_grade fc s ∈ [fc.pics.p0_20, fc.pics.p21_40, fc.pics.p41_60,
      fc.pics.p61_80, fc.pics.p81_99, fc.pics.p100] := by
  refine ⟨rfl, ?_, ?_, ?_, ?_, ?_, ?_, ?_⟩
  · intro h; simp [get_pic_by_grade, h]
  · intro hlo hhi; simp [get_pic_by_grade, not_le.mpr hlo, hhi]
  · intro hlo hhi
    simp [get_pic_by_grade, not_le.mpr hlo, not_le.mpr (by linarith : (20:ℚ) < s), hhi]
  · intro hlo hhi
    simp [get_pic_by_grade, not_le.mpr hlo, not_le.mpr (by linarith : (20:ℚ) < s),
      not_le.mpr (by linarith : (40:ℚ) < s), hhi]
  · intro hlo hhi
    simp [get_pic_by_grade, not_le.mpr hlo, not_le.mpr (by linarith : (20:ℚ) < s),
      not_le.mpr (by linarith : (40:ℚ) < s), not_le.mpr (by linarith : (60:ℚ) < s), hhi]
  · intro hlo
    simp [get_pic_by_grade, not_le.mpr hlo, not_le.mpr (by linarith : (20:ℚ) < s),
      not_le.mpr (by linarith : (40:ℚ) < s), not_le.mpr (by linarith : (60:ℚ) < s),
      not_le.mpr (by linarith : (80:ℚ) < s)]
  · unfold get_pic_by_grade
    split_ifs <;> simp

/-- C2 (witness): a total score of 50 selects the "41_60" table entry. -/
theorem pic_buckets_witness : get_pic_by_grade exFC 50 = exFC.pics.p41_60 :=
  (pic_buckets exFC exSuccess 50).2.2.2.1 (by norm_num) (by norm_num)

/-- C3: the table row rendered for a task carries the "xmark" picture in
its img slot exactly when the score of the task is strictly below its max
score, and the "check" picture otherwise; the choice is a function of that
task alone (no aggregate score enters `task_row`), and the grades part is
the concatenation of the per-task rows. -/
theorem task_row_icon (fc : FeedbackCreator) (i : ℕ) (task : Task) :
    (task.score < task.max_score →
      task_row fc i task = row_before i task ++ fc.pics.xmark ++ row_after) ∧
    (¬ task.score < task.max_score →
      task_row fc i task = row_before i task ++ fc.pics.check ++ row_after) ∧
    (fc.pics.xmark ≠ fc.pics.check →
      (task_row_img fc.pics task = fc.pics.xmark ↔ task.score < task.max_score)) ∧
    (∀ grades : List Exchanger.Task, get_grade_part fc grades =
      String.join (grades.enum.map (fun p => task_row fc p.1 p.2))) := by
  refine ⟨?_, ?_, ?_, ?_⟩
  · intro h; simp [task_row, task_row_img, h]
  · intro h; simp [task_row, task_row_img, h]
  · intro hne
    constructor
    · intro heq
      by_contra hlt
      rw [task_row_img, if_neg hlt] at heq
      exact hne heq.symm
    · intro h; simp [task_row_img, h]
  · intro grades
    simp [get_grade_part, String.join, List.foldl_map]

/-- C3 (witness): the half-score task renders the "xmark" row. -/
theorem task_row_icon_witness :
    task_row exFC 0 exTask = row_before 0 exTask ++ exFC.pics.xmark ++ row_after :=
  (task_row_icon exFC 0 exTask).1 (by norm_num [exTask])

/-- C4: the dispatch of `get_feedback` raises for a status outside the six
recognized variants — returning the ValueError text naming the status —
and returns a feedback for each of the six variants without raising. -/
theorem status_dispatch (fc : FeedbackCreator) (gr : GradeResult) :
    (recognized_status gr.status = true → ∃ fb, get_feedback fc gr = Except.ok fb) ∧
    (∀ t, gr.status = GradeStatus.unknown t →
      get_feedback fc gr = Except.error ("Unknown grade status \x22" ++ t ++ "\x22.")) ∧
    (recognized_status gr.status = false → ∃ e, get_feedback fc gr = Except.error e) := by
  rcases gr with ⟨st, sid, fn, ln, em, les, ts, tg⟩
  cases st <;> refine ⟨?_, ?_, ?_⟩ <;> intro h <;>
    simp_all [get_feedback, recognized_status]

/-- C4 (witness): the status outside the six variants named "BAD" makes
`get_feedback` raise, and the success status does not. -/
theorem status_dispatch_witness :
    get_feedback exFC exUnknown = Except.error ("Unknown grade status \x22" ++ "BAD" ++ "\x22.") ∧
    ∃ fb, get_feedback exFC exSuccess = Except.ok fb :=
  ⟨(status_dispatch exFC exUnknown).2.1 "BAD" rfl,
   (status_dispatch exFC exSuccess).1 rfl⟩

/-- C5: for a success-status result, the subject of the returned feedback
is the course name, the lesson name and the timestamp rendered with the
fixed date pattern, joined by " / ". -/
theorem success_subject (fc : FeedbackCreator) (gr : GradeResult)
    (h : gr.status = GradeStatus.SUCCESS) :
    ∃ fb, get_feedback fc gr = Except.ok fb ∧
      fb.subject = fc.course_name ++ " / " ++ gr.lesson_name ++ " / " ++
        gr.timestamp.strftime DATE_FORMAT := by
  rcases gr with ⟨st, sid, fn, ln, em, les, ts, tg⟩
  cases h
  exact ⟨_, rfl, rfl⟩

/-- C5 (witness): the subject at the concrete success result. -/
theorem success_subject_witness :
    ∃ fb, get_feedback exFC exSuccess = Except.ok fb ∧
      fb.subject = exFC.course_name ++ " / " ++ exSuccess.lesson_name ++ " / " ++
        exSuccess.timestamp.strftime DATE_FORMAT :=
  success_subject exFC exSuccess rfl

/-- C6: whenever `get_feedback` returns a feedback, its student display
name is present exactly when both the first and the last name are
non-empty, and then equals the two names joined by one space. -/
theorem student_name_display (fc : FeedbackCreator) (gr : GradeResult)
    (fb : Feedback) (h : get_feedback fc gr = Except.ok fb) :
    fb.student_name = (if gr.first_name ≠ "" ∧ gr.last_name ≠ ""
      then some (gr.first_name ++ " " ++ gr.last_name) else none) ∧
    (gr.first_name ≠ "" → gr.last_name ≠ "" →
      fb.student_name = some (gr.first_name ++ " " ++ gr.last_name)) ∧
    ((gr.first_name = "" ∨ gr.last_name = "") → fb.student_name = none) := by
  obtain ⟨bs, rfl⟩ := get_feedback_ok_shape fc gr fb h
  refine ⟨wrap_feedback_student_name fc gr bs, ?_, ?_⟩
  · intro h1 h2
    rw [wrap_feedback_student_name, if_pos ⟨h1, h2⟩]
  · intro h3
    rw [wrap_feedback_student_name,
      if_neg (fun hc => by rcases h3 with h | h; exacts [hc.1 h, hc.2 h])]

/-- C6 (witness): both names of the concrete result are non-empty and the
display name joins them with a space. -/
theorem student_name_display_witness :
    (wrap_feedback exFC exSuccess (get_success_feedback exFC exSuccess)).student_name =
      some (exSuccess.first_name ++ " " ++ exSuccess.last_name) :=
  (student_name_display exFC exSuccess
      (wrap_feedback exFC exSuccess (get_success_feedback exFC exSuccess)) rfl).2.1
    (by decide) (by decide)

/-- C7: each of the five error statuses yields a feedback whose subject is
the course name followed by the error-specific suffix and whose html body
is the outer shell wrapping the shared error-body template with the fixed
text of that error, the teacher email and the picture entry of that error
interpolated. -/
theorem error_feedbacks (fc : FeedbackCreator) (gr : GradeResult) :
    (gr.status = GradeStatus.ERROR_USERNAME_IS_ABSENT →
      ∃ fb, get_feedback fc gr = Except.ok fb ∧
        fb.subject = fc.course_name ++ " / Unknown user" ∧
        fb.html_body = pyFormat fc.template
          [("styles", fc.styles),
           ("body", pyFormat fc.error_body
             [("err_text", absent_username_text),
              ("teacher_email", fc.teacher_email),
              ("image_link", fc.pics.unknown_user)]),
           ("python_icon", fc.pics.python_logo),
           ("course_name", fc.course_name)]) ∧
    (gr.status = GradeStatus.ERROR_GRADER_FAILED →
      ∃ fb, get_feedback fc gr = Except.ok fb ∧
        fb.subject = fc.course_name ++ " / Grader failed" ∧
        fb.html_body = pyFormat fc.template
          [("styles", fc.styles),
           ("body", pyFormat fc.error_body
             [("err_text", grader_failed_text),
              ("teacher_email", fc.teacher_email),
              ("image_link", fc.pics.grader_failed)]),
           ("python_icon", fc.pics.python_logo),
           ("course_name", fc.course_name)]) ∧
    (gr.status = GradeStatus.ERROR_LESSON_IS_ABSENT →
      ∃ fb, get_feedback fc gr = Except.ok fb ∧
        fb.subject = fc.course_name ++ " / Unknown lesson" ∧
        fb.html_body = pyFormat fc.template
          [("styles", fc.styles),
           ("body", pyFormat fc.error_body
             [("err_text", incorrect_lesson_text),
              ("teacher_email", fc.teacher_email),
              ("image_link", fc.pics.unknown_lesson)]),
           ("python_icon", fc.pics.python_logo),
           ("course_name", fc.course_name)]) ∧
    (gr.status = GradeStatus.ERROR_NO_CORRECT_FILES →
      ∃ fb, get_feedback fc gr = Except.ok fb ∧
        fb.subject = fc.course_name ++ " / No correct files" ∧
        fb.html_body = pyFormat fc.template
          [("styles", fc.styles),
           ("body", pyFormat fc.error_body
             [("err_text", no_correct_files_text),
              ("teacher_email", fc.teacher_email),
              ("image_link", fc.pics.unknown_files)]),
           ("python_icon", fc.pics.python_logo),
           ("course_name", fc.course_name)]) ∧
    (gr.status = GradeStatus.ERROR_NOTEBOOK_CORRUPTED →
      ∃ fb, get_feedback fc gr = Except.ok fb ∧
        fb.subject = fc.course_name ++ " / Robots in panic" ∧
        fb.html_body = pyFormat fc.template
          [("styles", fc.styles),
           ("body", pyFormat fc.error_body
             [("err_text", notebook_corrupted_text),
              ("teacher_email", fc.teacher_email),
              ("image_link", fc.pics.unknown_content)]),
           ("python_icon", fc.pics.python_logo),
           ("course_name", fc.course_name)]) := by
  rcases gr with ⟨st, sid, fn, ln, em, les, ts, tg⟩
  refine ⟨?_, ?_, ?_, ?_, ?_⟩ <;> intro h <;> cases h <;> exact ⟨_, rfl, rfl, rfl⟩

/-- C7 (witness): the unknown-user status at the concrete composer. -/
theorem error_feedbacks_witness :
    ∃ fb, get_feedback exFC exUser = Except.ok fb ∧
      fb.subject = exFC.course_name ++ " / Unknown user" ∧
      fb.html_body = pyFormat exFC.template
        [("styles", exFC.styles),
         ("body", pyFormat exFC.error_body
           [("err_text", absent_username_text),
            ("teacher_email", exFC.teacher_email),
            ("image_link", exFC.pics.unknown_user)]),
         ("python_icon", exFC.pics.python_logo),
         ("course_name", exFC.course_name)] :=
  (error_feedbacks exFC exUser).1 rfl

/-- C8: for a success-status result the branch feeds the grades body with
the total score and max score summed over the whole task list; the score
shown as `sum_score` is that sum rounded to one decimal place, the
paragraph and the picture are selected from the same sums. -/
theorem success_scores (fc : FeedbackCreator) (gr : GradeResult)
    (h : gr.status = GradeStatus.SUCCESS) :
    get_feedback fc gr = Except.ok (wrap_feedback fc gr (get_success_feedback fc gr)) ∧
    get_success_feedback fc gr = (pyFormat fc.grades_body
      [("first_name", gr.first_name),
       ("lesson_name", gr.lesson_name),
       ("grades_info", get_grade_part fc gr.task_grades),
       ("image_link", get_pic_by_grade fc ((gr.task_grades.map Task.score).sum)),
       ("team_speech", pyStrOrNone (get_feedback_message
          ((gr.task_grades.map Task.score).sum)
          ((gr.task_grades.map Task.max_score).sum))),
       ("sum_score", pyStr (pyRound ((gr.task_grades.map Task.score).sum) 1))],
      fc.course_name ++ " / " ++ gr.lesson_name ++ " / " ++
        gr.timestamp.strftime DATE_FORMAT) := by
  rcases gr with ⟨st, sid, fn, ln, em, les, ts, tg⟩
  cases h
  exact ⟨rfl, rfl⟩

/-- C8 (witness): the success dispatch at the concrete result. -/
theorem success_scores_witness :
    get_feedback exFC exSuccess =
      Except.ok (wrap_feedback exFC exSuccess (get_success_feedback exFC exSuccess)) :=
  (success_scores exFC exSuccess rfl).1

/-- C9: running `get_feedback` in explicit-state form leaves every piece
of the composer state (course name, teacher email, picture table, all four
templates) unchanged, and a second run from the post-state returns the
same feedback. -/
theorem compose_frame (fc : FeedbackCreator) (gr : GradeResult)
    (fb : Feedback) (fc1 : FeedbackCreator)
    (h : get_feedback_run fc gr = Except.ok (fb, fc1)) :
    fc1 = fc ∧ fc1.course_name = fc.course_name ∧
    fc1.teacher_email = fc.teacher_email ∧ fc1.pics = fc.pics ∧
    fc1.template = fc.template ∧ fc1.styles = fc.styles ∧
    fc1.error_body = fc.error_body ∧ fc1.grades_body = fc.grades_body ∧
    get_feedback_run fc1 gr = Except.ok (fb, fc1) := by
  have hfc : fc1 = fc ∧ get_feedback fc gr = Except.ok fb := by
    unfold get_feedback_run at h
    cases hE : get_feedback fc gr with
    | error e => rw [hE] at h; simp [Except.map] at h
    | ok v =>
        rw [hE] at h
        simp [Except.map] at h
        obtain ⟨hv, hc⟩ := h
        refine ⟨hc.symm, ?_⟩
        rw [hv]
  obtain ⟨rfl, hOk⟩ := hfc
  refine ⟨rfl, rfl, rfl, rfl, rfl, rfl, rfl, rfl, ?_⟩
  unfold get_feedback_run
  rw [hOk]
  rfl

/-- C9 (witness): the run at the concrete success result returns the
unchanged composer state. -/
theorem compose_frame_witness :
    get_feedback_run exFC exSuccess =
      Except.ok (wrap_feedback exFC exSuccess (get_success_feedback exFC exSuccess), exFC) :=
  (compose_frame exFC exSuccess
      (wrap_feedback exFC exSuccess (get_success_feedback exFC exSuccess)) exFC
      rfl).2.2.2.2.2.2.2.2

/-- C10: a success-status result with no task grades composes without
error; both sums are 0, the grades table part is empty, the score-0
encouragement paragraph is selected and the "0_20" picture is used. -/
theorem compose_empty_tasks (fc : FeedbackCreator) (gr : GradeResult)
    (hs : gr.status = GradeStatus.SUCCESS) (ht : gr.task_grades = []) :
    (∃ fb, get_feedback fc gr = Except.ok fb) ∧
    (gr.task_grades.map Task.score).sum = 0 ∧
    (gr.task_grades.map Task.max_score).sum = 0 ∧
    get_grade_part fc gr.task_grades = "" ∧
    get_feedback_message 0 0 = some msg_score_zero ∧
    get_pic_by_grade fc 0 = fc.pics.p0_20 ∧
    (get_success_feedback fc gr).1 = pyFormat fc.grades_body
      [("first_name", gr.first_name),
       ("lesson_name", gr.lesson_name),
       ("grades_info", ""),
       ("image_link", fc.pics.p0_20),
       ("team_speech", msg_score_zero),
       ("sum_score", pyStr 0)] := by
  rcases gr with ⟨st, sid, fn, ln, em, les, ts, tg⟩
  cases hs
  cases ht
  have h1 : get_pic_by_grade fc 0 = fc.pics.p0_20 := by norm_num [get_pic_by_grade]
  have h2 : get_feedback_message 0 0 = some msg_score_zero := by
    norm_num [get_feedback_message]
  have h3 : pyRound 0 1 = 0 := by
    norm_num [pyRound, roundHalfEven]
  refine ⟨⟨_, rfl⟩, rfl, rfl, rfl, h2, h1, ?_⟩
  simp [get_success_feedback, get_grade_part, h1, h2, h3, pyStrOrNone]

/-- C10 (witness): the concrete empty-task success result composes. -/
theorem compose_empty_tasks_witness :
    ∃ fb, get_feedback exFC exEmpty = Except.ok fb :=
  (compose_empty_tasks exFC exEmpty rfl rfl).1

end Exchanger
